import Mathlib

/-!
Shallow embedding of the pooled-token program in src/demo-contract.rs
(module vulnerable_defi, lines 7..109).

Machine integers: all u64 fields and arguments are modelled as Nat values
below 2^64; the unchecked Rust arithmetic on them (release-profile
semantics, as announced by the source's own comments such as
line 34 "No overflow protection") wraps modulo 2^64, which we write
explicitly with wadd / wsub / wmul.

Fallible instruction handlers return Option: some = Ok(()), none = Err.
The Solana runtime executes each instruction atomically, so a none result
leaves no partial state; the Anchor error value itself carries no state
and is not tracked.

The SPL token transfer primitive (token::transfer) debits the source
token account and credits the destination, failing on insufficient source
funds or destination overflow (checked_sub / checked_add in the SPL token
processor).
-/

namespace VulnerableDefi

/-- Cardinality of the u64 value range. -/
def U64CARD : Nat := 2 ^ 64

/-- Wrapping u64 addition (Rust `a + b` on u64 with overflow checks off). -/
def wadd (a b : Nat) : Nat := (a + b) % U64CARD

/-- Wrapping u64 subtraction (Rust `a - b` on u64 with overflow checks off). -/
def wsub (a b : Nat) : Nat := (a + U64CARD - b % U64CARD) % U64CARD

/-- Wrapping u64 multiplication (Rust `a * b` on u64 with overflow checks off). -/
def wmul (a b : Nat) : Nat := (a * b) % U64CARD

/-- The Pool state record (src/demo-contract.rs lines 11..17).
The admin Pubkey is modelled as an opaque equality-comparable Nat. -/
structure Pool where
  total_supply : Nat
  interest_rate : Nat
  admin : Nat
  emergency_withdraw_enabled : Bool
deriving Repr, DecidableEq

/-- The mutable account state an instruction touches: the Pool record plus
the balances (the `amount` field) of the user and pool SPL token accounts
named in every Accounts context of the program. -/
structure St where
  pool : Pool
  user_token : Nat
  pool_token : Nat
deriving Repr, DecidableEq

/-- SPL token transfer on raw balances: fails if the source lacks funds or
the destination would overflow u64, otherwise moves `amount`. -/
def splTransfer (src dst amount : Nat) : Option (Nat × Nat) :=
  if amount ≤ src ∧ dst + amount < U64CARD then some (src - amount, dst + amount)
  else none

/-- token::transfer from the user token account to the pool token account
(the CPI in `deposit`, lines 38..48). -/
def transferUserToPool (st : St) (amount : Nat) : Option St :=
  match splTransfer st.user_token st.pool_token amount with
  | some (u, p) => some { st with user_token := u, pool_token := p }
  | none => none

/-- token::transfer from the pool token account to the user token account
(the CPI in `withdraw`, lines 58..68, and `emergency_withdraw`,
lines 82..92). -/
def transferPoolToUser (st : St) (amount : Nat) : Option St :=
  match splTransfer st.pool_token st.user_token amount with
  | some (p, u) => some { st with user_token := u, pool_token := p }
  | none => none

/-- set_interest_rate (lines 20..27): assigns `pool.interest_rate = new_rate`
unconditionally and returns Ok.  The `authority` signer account is present
in the SetInterestRate context (lines 111..116) but is never compared to
`pool.admin` (line 23: "Missing admin check"). -/
def set_interest_rate (authority : Nat) (st : St) (new_rate : Nat) : Option St :=
  some { st with pool := { st.pool with interest_rate := new_rate } }

/-- deposit (lines 30..51): `pool.total_supply = pool.total_supply + amount`
with unchecked (wrapping) addition and no validation of `amount`, then the
user-to-pool token transfer; a failed transfer aborts the instruction and
the runtime discards the supply update. -/
def deposit (st : St) (amount : Nat) : Option St :=
  let st1 : St :=
    { st with pool := { st.pool with total_supply := wadd st.pool.total_supply amount } }
  transferUserToPool st1 amount

/-- A transfer gateway: the behaviour of the external `token::transfer` CPI
made by `withdraw`, including any nested invocations of this same program
that the callee performs before returning (logical reentrancy).  It
receives the transfer amount and the state as it stands at the moment of
the call. -/
def Gateway : Type := Nat → St → Option St

/-- withdraw (lines 54..74): first the external pool-to-user transfer
(line 58, before any state update), then
`pool.total_supply = pool.total_supply - amount` with unchecked (wrapping)
subtraction (line 71).  There is no amount-vs-supply check and no
reentrancy flag anywhere in the program. -/
def withdraw (gw : Gateway) (st : St) (amount : Nat) : Option St :=
  match gw amount st with
  | none => none
  | some st1 =>
      some { st1 with pool := { st1.pool with total_supply := wsub st1.pool.total_supply amount } }

/-- The honest gateway: the CPI performs exactly the SPL pool-to-user
transfer and nothing else. -/
def honestGateway : Gateway := fun amount st => transferPoolToUser st amount

/-- A malicious gateway: it performs the requested pool-to-user transfer and
then, before returning control to the outer `withdraw`, re-enters
`withdraw` for `innerAmount` (with an honest gateway inside). -/
def reenterGateway (innerAmount : Nat) : Gateway := fun amount st =>
  match transferPoolToUser st amount with
  | none => none
  | some st1 => withdraw honestGateway st1 innerAmount

/-- An observing gateway: it records the pool total_supply it sees at the
moment of the transfer into the (otherwise unused here) user_token field,
so the post-state exposes which supply value was visible during the
external call. -/
def spyGateway : Gateway := fun _ st => some { st with user_token := st.pool.total_supply }

/-- emergency_withdraw (lines 77..96): if the emergency flag is set it
transfers the ENTIRE pool token account balance
(`ctx.accounts.pool_token_account.amount`, line 91) to the caller's token
account; otherwise it does nothing.  The `user` signer (line 153) is never
inspected, and the Pool account is taken immutably (line 78 and the
missing `mut` on line 146), so no Pool field is ever written. -/
def emergency_withdraw (user : Nat) (st : St) : Option St :=
  if st.pool.emergency_withdraw_enabled then transferPoolToUser st st.pool_token
  else some st

/-- calculate_rewards (lines 99..108): computes
`principal * pool.interest_rate * time / 100` entirely in u64 with
unchecked (wrapping) multiplications (line 103) and logs the result; we
model the computed rewards value. -/
def calculate_rewards (pool : Pool) (principal time : Nat) : Nat :=
  wmul (wmul principal pool.interest_rate) time / 100

/-- A pool operation for sequencing (claim C1): deposit, withdraw (with the
honest gateway) or emergency withdraw by some user. -/
inductive Op where
  | dep (amount : Nat)
  | wd (amount : Nat)
  | ew (user : Nat)
deriving Repr, DecidableEq

/-- One operation step. -/
def step (st : St) : Op → Option St
  | Op.dep a => deposit st a
  | Op.wd a => withdraw honestGateway st a
  | Op.ew u => emergency_withdraw u st

/-- Run a sequence of operations; the whole run fails as soon as one
operation fails, so a `some` result is a sequence of only-successful
operations. -/
def run (st : St) : List Op → Option St
  | [] => some st
  | o :: os =>
      match step st o with
      | none => none
      | some st1 => run st1 os

/-- Initial state for claim C1: total_supply = 0 (as the claim requires)
while the pool token account holds 5 tokens. -/
def st_c1 : St :=
  { pool := { total_supply := 0, interest_rate := 0, admin := 0,
              emergency_withdraw_enabled := false },
    user_token := 0, pool_token := 5 }

/-- State for claim C2: total_supply = 100, pool token account holds 100. -/
def st_c2 : St :=
  { pool := { total_supply := 100, interest_rate := 0, admin := 0,
              emergency_withdraw_enabled := false },
    user_token := 0, pool_token := 100 }

/-- The state the nested withdraw of claim C2 starts from: after the outer
transfer of 50 has moved 50 tokens to the user, total_supply still 100. -/
def st_c2_inner : St :=
  { pool := { total_supply := 100, interest_rate := 0, admin := 0,
              emergency_withdraw_enabled := false },
    user_token := 50, pool_token := 50 }

/-- State for claim C3: total_supply = 100 (the scenario of the spec). -/
def st_c3 : St :=
  { pool := { total_supply := 100, interest_rate := 0, admin := 0,
              emergency_withdraw_enabled := false },
    user_token := 0, pool_token := 100 }

/-- State for claim C4: admin is identity 0, interest_rate is 3. -/
def st_c4 : St :=
  { pool := { total_supply := 0, interest_rate := 3, admin := 0,
              emergency_withdraw_enabled := false },
    user_token := 0, pool_token := 0 }

/-- State for claim C5: emergency flag enabled, pool token account holds
100 tokens (funds entitled to multiple users in the spec scenario). -/
def st_c5 : St :=
  { pool := { total_supply := 100, interest_rate := 0, admin := 0,
              emergency_withdraw_enabled := true },
    user_token := 0, pool_token := 100 }

/-- State for claim C6: total_supply = 10, pool token account holds 20. -/
def st_c6 : St :=
  { pool := { total_supply := 10, interest_rate := 0, admin := 0,
              emergency_withdraw_enabled := false },
    user_token := 0, pool_token := 20 }

/-- State for claim C7: total_supply at the u64 maximum. -/
def st_c7 : St :=
  { pool := { total_supply := 18446744073709551615, interest_rate := 0, admin := 0,
              emergency_withdraw_enabled := false },
    user_token := 1, pool_token := 0 }

/-- Pool for claim C8 with interest_rate = 2^32. -/
def pool_c8 : Pool :=
  { total_supply := 0, interest_rate := 4294967296, admin := 0,
    emergency_withdraw_enabled := false }

/-- Pool for claim C8's concrete spec scenario, interest_rate = 1000. -/
def pool_c8_scenario : Pool :=
  { total_supply := 0, interest_rate := 1000, admin := 0,
    emergency_withdraw_enabled := false }

/-- State for claim C9: a generic reachable state. -/
def st_c9 : St :=
  { pool := { total_supply := 50, interest_rate := 0, admin := 0,
              emergency_withdraw_enabled := false },
    user_token := 5, pool_token := 50 }

/-- State for claim C10's witness: flag enabled, pool token account
holds 10. -/
def st_c10 : St :=
  { pool := { total_supply := 10, interest_rate := 2, admin := 9,
              emergency_withdraw_enabled := true },
    user_token := 0, pool_token := 10 }

/-- Post-state of emergency_withdraw on st_c10: full pool balance moved to
the user, Pool record untouched. -/
def st_c10_post : St :=
  { pool := { total_supply := 10, interest_rate := 2, admin := 9,
              emergency_withdraw_enabled := true },
    user_token := 10, pool_token := 0 }

/-- C1: the supply accounting invariant fails on the code.  Starting from
total_supply = 0, the single-operation sequence [withdraw 5] is entirely
successful (the pool token account funds the transfer and there is no
supply check), yet the resulting total_supply is 2^64 - 5, which is not
the sum of deposits minus withdrawals (0 - 5): the unchecked subtraction
wrapped instead of the operation failing. -/
theorem c1_supply_invariant_fails :
    (run st_c1 [Op.wd 5]).map (fun s => s.pool.total_supply) =
      some 18446744073709551611 ∧
    (18446744073709551611 : Int) ≠ (0 : Int) - 5 := by
  constructor
  · rfl
  · decide

/-- C2: reentrancy is not rejected.  With total_supply = 100, a gateway
that re-enters withdraw(50) during the outer withdraw(50) finds no
reentrancy flag: the nested call succeeds (it does not fail Reentrant),
and the outer call completes with total_supply = 0, i.e. TWO deductions
of 50, whereas exactly one deduction would leave wsub 100 50 = 50. -/
theorem c2_reentrancy_not_rejected :
    withdraw honestGateway st_c2_inner 50 ≠ none ∧
    (withdraw (reenterGateway 50) st_c2 50).map (fun s => s.pool.total_supply) =
      some 0 ∧
    wsub st_c2.pool.total_supply 50 = 50 ∧ (0 : Nat) ≠ 50 := by
  refine ⟨by decide, rfl, by decide, by decide⟩

/-- C3: effects do NOT precede interactions in withdraw.  With
total_supply = 100 and withdraw(50), a gateway that records the
total_supply it observes during the transfer records 100, the stale
pre-deduction value, not the already-deducted 50 the claim requires. -/
theorem c3_gateway_observes_stale_supply :
    (withdraw spyGateway st_c3 50).map (fun s => s.user_token) = some 100 ∧
    (100 : Nat) ≠ 50 := by
  exact ⟨rfl, by decide⟩

/-- C4: admin authorization is absent.  Caller 1 differs from the pool's
admin 0, yet set_interest_rate succeeds (returns Ok, not Unauthorized) and
changes interest_rate from 3 to 7. -/
theorem c4_non_admin_sets_rate :
    (1 : Nat) ≠ st_c4.pool.admin ∧
    set_interest_rate 1 st_c4 7 =
      some { st_c4 with pool := { st_c4.pool with interest_rate := 7 } } ∧
    (7 : Nat) ≠ st_c4.pool.interest_rate := by
  refine ⟨by decide, rfl, by decide⟩

/-- C5: emergency-withdraw containment fails.  Whatever caller identity
invokes it (no entitlement or authorization check exists), with the flag
enabled it transfers the ENTIRE pool token balance (100) to that caller,
not merely the caller's own share. -/
theorem c5_emergency_withdraw_drains_full_pool :
    ∀ caller : Nat,
      (emergency_withdraw caller st_c5).map (fun s => s.user_token) =
        some st_c5.pool_token := by
  intro caller
  rfl

/-- C6: the underflow guard is absent.  With total_supply = 10,
withdraw(20) succeeds (the pool token account holds 20 so the transfer
goes through) and total_supply wraps to 2^64 - 10 instead of the call
failing with total_supply unchanged. -/
theorem c6_withdraw_underflow_wraps :
    st_c6.pool.total_supply < 20 ∧
    (withdraw honestGateway st_c6 20).map (fun s => s.pool.total_supply) =
      some 18446744073709551606 := by
  exact ⟨by decide, rfl⟩

/-- C7: the overflow guard is absent.  With total_supply = 2^64 - 1,
deposit(1) succeeds and stores the wrapped value 0 in total_supply, rather
than failing with Overflow and leaving total_supply unchanged. -/
theorem c7_deposit_overflow_wraps :
    U64CARD ≤ st_c7.pool.total_supply + 1 ∧
    deposit st_c7 1 =
      some { pool := { total_supply := 0, interest_rate := 0, admin := 0,
                       emergency_withdraw_enabled := false },
             user_token := 0, pool_token := 1 } := by
  exact ⟨by decide, rfl⟩

/-- C8: there is no widened (128-bit) intermediate.  With
principal = 2^32, rate = 2^32, time = 1, the u64 product wraps to 0 and
calculate_rewards yields 0, while the exact widened value 2^64 / 100 =
184467440737095516 fits in u64 (so a widened implementation would succeed
with it).  The claim's concrete scenario (10^12, 1000, 1000) happens to
stay below 2^64 at every step, so there the wrapping code coincidentally
returns the exact value 10^16. -/
theorem c8_rewards_not_widened :
    calculate_rewards pool_c8 4294967296 1 = 0 ∧
    4294967296 * 4294967296 * 1 / 100 = 184467440737095516 ∧
    184467440737095516 < U64CARD ∧
    (0 : Nat) ≠ 184467440737095516 ∧
    calculate_rewards pool_c8_scenario 1000000000000 1000 = 10000000000000000 := by
  refine ⟨rfl, by decide, by decide, by decide, rfl⟩

/-- C9: deposit input validation is absent.  deposit(0) succeeds (returns
Ok and leaves the state unchanged) instead of failing with
InvalidInputError. -/
theorem c9_zero_deposit_succeeds :
    deposit st_c9 0 = some st_c9 := by
  rfl

/-- C10: frame property of emergency_withdraw.  For every caller and every
state, whenever the call returns Ok the entire Pool record — total_supply,
interest_rate, admin and emergency_withdraw_enabled — is unchanged:
whatever the flag's value and whether or not a transfer happened, only the
token account balances can move, and the pool's recorded total_supply is
never debited. -/
theorem c10_emergency_withdraw_preserves_pool (user : Nat) (st st' : St)
    (h : emergency_withdraw user st = some st') : st'.pool = st.pool := by
  unfold emergency_withdraw at h
  split at h
  · unfold transferPoolToUser at h
    rcases hsp : splTransfer st.pool_token st.user_token st.pool_token with _ | pr
    · rw [hsp] at h
      exact absurd h (by simp)
    · rw [hsp] at h
      simp only [Option.some.injEq] at h
      subst h
      rfl
  · simp only [Option.some.injEq] at h
    subst h
    rfl

/-- Witness for C10 at a concrete input: emergency_withdraw by caller 3 on
st_c10 succeeds and the resulting Pool record equals the original. -/
theorem c10_emergency_withdraw_preserves_pool_witness :
    emergency_withdraw 3 st_c10 = some st_c10_post ∧ st_c10_post.pool = st_c10.pool := by
  exact ⟨by decide, c10_emergency_withdraw_preserves_pool 3 st_c10 st_c10_post (by decide)⟩

end VulnerableDefi
